import Mathlib

/-!
# Verification of the statics coin/network registry core

Shallow embedding of the feature-contract validation engine and the network
catalog of the `statics` package:

* `src/base.ts` — `CoinKind`, `CoinFamily`, `CoinFeature`, `UnderlyingAsset`,
  `BaseCoinConstructorOptions`, `BaseCoin.validateOptions`, and the `BaseCoin`
  constructor.
* the networks file — `NetworkType`, `UtxoNetwork`, `AccountNetwork`, the
  concrete network classes, and the frozen `Networks` catalog.

JavaScript `Set<CoinFeature>` values are embedded as duplicate-free
(`List.Nodup`) lists of `CoinFeature`, which preserves both membership and the
deterministic insertion-order iteration of JS sets.  The `for (const feature of
options.features)` loop of `validateOptions`, which mutates the local
`requiredFeatures` set via `delete`, is embedded as the explicit fold
`checkFeatures`, whose accumulator is the current value of that local set.
Thrown errors become the `Except` error channel.

TypeScript class fields are assigned per instance by the constructor and are
never placed on the class's `prototype` object, so the testnet classes'
initializers that read `Bitcoin.prototype.messagePrefix`,
`Bitcoin.prototype.family`, `Litecoin.prototype.*`, `Ethereum.prototype.family`,
`Ripple.prototype.family` and `Stellar.prototype.family` all evaluate to
`undefined` at runtime (the reads typecheck because `prototype` is typed as the
class, but the fields are instance-only).  The runtime value space of such a
field is therefore the declared type extended with `undefined`, embedded here
as `Option`: mainnet records hold `some` of their literal initializers, and
each testnet field initialized from a prototype read holds
`prototypeFieldRead = none`.
-/

namespace Statics

/-- `CoinKind` from `base.ts`. -/
inductive CoinKind where
  | CRYPTO
  | FIAT
deriving DecidableEq, Repr

/-- `CoinFamily` from `base.ts`: links related variants of a single coin. -/
inductive CoinFamily where
  | ALGO
  | BCH
  | BSV
  | BTC
  | BTG
  | DASH
  | ETH
  | EOS
  | LTC
  | OFC
  | RMG
  | SUSD
  | XLM
  | XRP
  | ZEC
deriving DecidableEq, Repr

/-- `CoinFeature` from `base.ts`: yes/no capability flags of a coin. -/
inductive CoinFeature where
  | VALUELESS_TRANSFER
  | TRANSACTION_DATA
  | REQUIRES_BIG_NUMBER
  | REQUIRES_KRS_BACKUP_KEY
  | PAYGO
  | UNSPENT_MODEL
  | ACCOUNT_MODEL
  | CHILD_PAYS_FOR_PARENT
  | WRAPPED_SEGWIT
  | NATIVE_SEGWIT
  | SUPPORTS_TOKENS
deriving DecidableEq, Repr

/-- The stable wire identifier of each coin feature (`base.ts` enum values). -/
def CoinFeature.identifier : CoinFeature → String
  | VALUELESS_TRANSFER => "valueless-transfer"
  | TRANSACTION_DATA => "transaction-data"
  | REQUIRES_BIG_NUMBER => "requires-big-number"
  | REQUIRES_KRS_BACKUP_KEY => "requires-krs-backup-key"
  | PAYGO => "paygo"
  | UNSPENT_MODEL => "unspent-model"
  | ACCOUNT_MODEL => "account-model"
  | CHILD_PAYS_FOR_PARENT => "cpfp"
  | WRAPPED_SEGWIT => "wrapped-segwit"
  | NATIVE_SEGWIT => "native-segwit"
  | SUPPORTS_TOKENS => "supports-tokens"

/-- `NetworkType` from the networks file. -/
inductive NetworkType where
  | MAINNET
  | TESTNET
deriving DecidableEq, Repr

/-- `UtxoNetwork` interface from the networks file, at JS runtime precision.
The nested `bip32: {public, private}` object is flattened into two fields
because `private` is a Lean keyword.  `messagePrefix` and `family` are
`Option`-valued because the testnet instances initialize them from
`prototype` reads that produce `undefined` at runtime, even though the
TS interface declares them present. -/
structure UtxoNetwork where
  messagePrefix : Option String
  bech32 : String
  bip32_public : Nat
  bip32_private : Nat
  pubKeyHash : Nat
  scriptHash : Nat
  wif : Nat
  family : Option CoinFamily
  type : NetworkType
deriving DecidableEq, Repr

/-- `AccountNetwork` interface from the networks file, at JS runtime
precision: `family` is `Option`-valued because the testnet instances
initialize it from a `prototype` read that produces `undefined`. -/
structure AccountNetwork where
  family : Option CoinFamily
  type : NetworkType
deriving DecidableEq, Repr

/-- `BaseNetwork`, the common shape consumed by `base.ts`: a network is either
a UTXO network or an account network, both sharing `{family, type}`. -/
inductive BaseNetwork where
  | utxo : UtxoNetwork → BaseNetwork
  | account : AccountNetwork → BaseNetwork
deriving DecidableEq, Repr

/-- The shared `family` field of a `BaseNetwork` (possibly `undefined` at
runtime, see above). -/
def BaseNetwork.family : BaseNetwork → Option CoinFamily
  | utxo n => n.family
  | account n => n.family

/-- The shared `type` field of a `BaseNetwork`. -/
def BaseNetwork.type : BaseNetwork → NetworkType
  | utxo n => n.type
  | account n => n.type

/-- The runtime value of reading a field off a TS class's `prototype` object
when that field is declared with an instance initializer: instance fields
never reach the prototype, so the read yields `undefined` (`none`). -/
def prototypeFieldRead {α : Type} : Option α := none

/-- Shared constant `BTC_FAMILY_MAINNET_BIP32_PUBLIC` from the networks file. -/
def BTC_FAMILY_MAINNET_BIP32_PUBLIC : Nat := 0x0488b21e

/-- Shared constant `BTC_FAMILY_MAINNET_BIP32_PRIVATE` from the networks file. -/
def BTC_FAMILY_MAINNET_BIP32_PRIVATE : Nat := 0x0488ade4

/-- Shared constant `BTC_FAMILY_WIF` from the networks file. -/
def BTC_FAMILY_WIF : Nat := 0x80

/-- The `Bitcoin` mainnet network class instance. -/
def Bitcoin : UtxoNetwork where
  messagePrefix := some "\x18Bitcoin Signed Message:\n"
  bech32 := "bc"
  bip32_public := BTC_FAMILY_MAINNET_BIP32_PUBLIC
  bip32_private := BTC_FAMILY_MAINNET_BIP32_PRIVATE
  pubKeyHash := 0x00
  scriptHash := 0x05
  wif := BTC_FAMILY_WIF
  family := some CoinFamily.BTC
  type := NetworkType.MAINNET

/-- The `BitcoinTestnet` network class instance.  Its `messagePrefix` and
`family` initializers read `Bitcoin.prototype.messagePrefix` and
`Bitcoin.prototype.family`, which are `undefined` at runtime because `Bitcoin`
declares them as instance fields only. -/
def BitcoinTestnet : UtxoNetwork where
  bech32 := "tb"
  bip32_public := 0x043587cf
  bip32_private := 0x04358394
  pubKeyHash := 0x6f
  scriptHash := 0xc4
  wif := 0xef
  messagePrefix := prototypeFieldRead
  family := prototypeFieldRead
  type := NetworkType.TESTNET

/-- The `BitcoinGold` mainnet network class instance. -/
def BitcoinGold : UtxoNetwork where
  messagePrefix := some "\x18Bitcoin Gold Signed Message:\n"
  bech32 := "btg"
  bip32_public := BTC_FAMILY_MAINNET_BIP32_PUBLIC
  bip32_private := BTC_FAMILY_MAINNET_BIP32_PRIVATE
  pubKeyHash := 0x26
  scriptHash := 0x17
  wif := BTC_FAMILY_WIF
  family := some CoinFamily.BTG
  type := NetworkType.MAINNET

/-- The `Litecoin` mainnet network class instance. -/
def Litecoin : UtxoNetwork where
  messagePrefix := some "\x19Litecoin Signed Message:\n"
  bech32 := "ltc"
  bip32_public := BTC_FAMILY_MAINNET_BIP32_PUBLIC
  bip32_private := BTC_FAMILY_MAINNET_BIP32_PRIVATE
  pubKeyHash := 0x30
  scriptHash := 0x32
  wif := 0xb0
  family := some CoinFamily.LTC
  type := NetworkType.MAINNET

/-- The `LitecoinTestnet` network class instance.  Its `messagePrefix` and
`family` initializers read `Litecoin.prototype.messagePrefix` and
`Litecoin.prototype.family`, which are `undefined` at runtime. -/
def LitecoinTestnet : UtxoNetwork where
  bech32 := "tltc"
  bip32_public := BTC_FAMILY_MAINNET_BIP32_PUBLIC
  bip32_private := BTC_FAMILY_MAINNET_BIP32_PRIVATE
  pubKeyHash := 0x6f
  scriptHash := 0x3a
  wif := 0xb0
  messagePrefix := prototypeFieldRead
  family := prototypeFieldRead
  type := NetworkType.TESTNET

/-- The `Ethereum` mainnet account network class instance. -/
def Ethereum : AccountNetwork where
  family := some CoinFamily.ETH
  type := NetworkType.MAINNET

/-- The `Kovan` testnet account network.  Its `family` initializer reads
`Ethereum.prototype.family`, which is `undefined` at runtime. -/
def Kovan : AccountNetwork where
  family := prototypeFieldRead
  type := NetworkType.TESTNET

/-- The `Ripple` mainnet account network class instance. -/
def Ripple : AccountNetwork where
  family := some CoinFamily.XRP
  type := NetworkType.MAINNET

/-- The `RippleTestnet` account network.  Its `family` initializer reads
`Ripple.prototype.family`, which is `undefined` at runtime. -/
def RippleTestnet : AccountNetwork where
  family := prototypeFieldRead
  type := NetworkType.TESTNET

/-- The `Stellar` mainnet account network class instance. -/
def Stellar : AccountNetwork where
  family := some CoinFamily.XLM
  type := NetworkType.MAINNET

/-- The `StellarTestnet` account network.  Its `family` initializer reads
`Stellar.prototype.family`, which is `undefined` at runtime. -/
def StellarTestnet : AccountNetwork where
  family := prototypeFieldRead
  type := NetworkType.TESTNET

/-- The mainnet half of the frozen `Networks` catalog object. -/
structure MainnetNetworks where
  bitcoin : UtxoNetwork
  bitcoinGold : UtxoNetwork
  litecoin : UtxoNetwork
  ethereum : AccountNetwork
  ripple : AccountNetwork
  stellar : AccountNetwork
deriving DecidableEq, Repr

/-- The testnet half of the frozen `Networks` catalog object. -/
structure TestnetNetworks where
  bitcoin : UtxoNetwork
  litecoin : UtxoNetwork
  kovan : AccountNetwork
  ripple : AccountNetwork
  stellar : AccountNetwork
deriving DecidableEq, Repr

/-- The shape of the exported `Networks` constant. -/
structure NetworksCatalog where
  main : MainnetNetworks
  test : TestnetNetworks
deriving DecidableEq, Repr

/-- The exported, frozen `Networks` catalog from the networks file. -/
def Networks : NetworksCatalog where
  main :=
    { bitcoin := Bitcoin
      bitcoinGold := BitcoinGold
      litecoin := Litecoin
      ethereum := Ethereum
      ripple := Ripple
      stellar := Stellar }
  test :=
    { bitcoin := BitcoinTestnet
      litecoin := LitecoinTestnet
      kovan := Kovan
      ripple := RippleTestnet
      stellar := StellarTestnet }

/-- `UnderlyingAsset` from `base.ts`: the economic asset a coin denominates.
The enumeration is reproduced verbatim from the source (base assets followed by
the ERC-20 and Kovan-only token identifiers). -/
inductive UnderlyingAsset where
  | ALGO
  | BCH
  | BSV
  | BTC
  | BTG
  | DASH
  | USD
  | ETH
  | EOS
  | LTC
  | XRP
  | XLM
  | ZEC
  | ABT
  | AE
  | AERGO
  | AGI
  | AION
  | AMN
  | AMON
  | ANA
  | ANT
  | AOA
  | APPC
  | AST
  | AUDX
  | AUTO
  | AXPR
  | BAT
  | BAX
  | BBX
  | BCAP
  | BCIO
  | BID
  | BIRD
  | BLZ
  | BNB
  | BNK
  | BNT
  | BNTY
  | BOX
  | BRD
  | BST
  | BTM
  | BTT
  | BTU
  | BUY
  | CADX
  | CAG
  | CBAT
  | CBC
  | CDAG
  | CDAI
  | CDT
  | CETH
  | CEL
  | CENNZ
  | CGLD
  | CHFX
  | CHSB
  | CLN
  | CMT
  | CND
  | CNYX
  | CPAY
  | CPLT
  | CQX
  | CREP
  | CRO
  | CRPT
  | CS
  | CSLV
  | CUSDC
  | CVC
  | CZRX
  | DAI
  | DATA
  | DCN
  | DENT
  | DEW
  | DGD
  | DGX
  | DRGN
  | DROP
  | DRPU
  | DRV
  | DTR
  | ECHT
  | EDR
  | EGL
  | ELF
  | ENG
  | ENJ
  | ERC
  | ETHOS
  | ETO
  | EURS
  | EURX
  | EUX
  | FET
  | FMF
  | FSN
  | FUN
  | FXRT
  | GBPX
  | GEN
  | GLDX
  | GNO
  | GNT
  | GNX
  | GOT
  | GTO
  | GUSD
  | GVT
  | HEDG
  | HLC
  | HOLD
  | HOT
  | HPB
  | HQT
  | HST
  | HT
  | HXRO
  | HYB
  | HYDRO
  | ICN
  | ICX
  | INCX
  | IND
  | IOST
  | ISR
  | JBC
  | JPYX
  | KCS
  | KEY
  | KIN
  | KNC
  | KZE
  | LBA
  | LEO
  | LGO
  | LINK
  | LION
  | LNC
  | LOOM
  | LRC
  | MAN
  | MANA
  | MCO
  | MCX
  | MDX
  | MEDX
  | MET
  | META
  | MFG
  | MFT
  | MITH
  | MKR
  | MTCN
  | MTL
  | MVL
  | NAS
  | NCASH
  | NEU
  | NEXO
  | NMR
  | NPXS
  | NULS
  | NZDX
  | OMG
  | ONL
  | OPT
  | ORBS
  | OST
  | PAX
  | PAY
  | PAYX
  | PDATA
  | PLC
  | PLR
  | PLX
  | PMA
  | POE
  | POLY
  | POWR
  | PPP
  | PPT
  | PRDX
  | PRL
  | PRO
  | QASH
  | QRL
  | QSP
  | QUASH
  | QVT
  | R
  | RBY
  | RDN
  | REB
  | REBL
  | REP
  | REQ
  | RFR
  | RHOC
  | RLC
  | ROOBEE
  | RUBX
  | RUFF
  | SALT
  | SAN
  | SHK
  | SHR
  | SLOT
  | SLVX
  | SMT
  | SNOV
  | SNT
  | SPO
  | SRN
  | SRNT
  | STORJ
  | STORM
  | SUB
  | TAUD
  | TEN
  | TENX
  | THETA
  | TIOX
  | TKX
  | TMS
  | TNT
  | TRST
  | TRX
  | TUSD
  | UKG
  | UPBTC
  | UPP
  | UPT
  | UPUSD
  | UQC
  | USDC
  | USDT
  | USDX
  | USX
  | VALOR
  | VDX
  | VEE
  | VEN
  | VERI
  | WAX
  | WBTC
  | WHT
  | WPX
  | WTC
  | XCD
  | XIN
  | XRL
  | YSEY
  | ZCO
  | ZIL
  | ZIX
  | ZOOM
  | ZRX
  | TEST
  | SCHZ
  | TCAT
deriving DecidableEq, Repr

/-- `BaseCoinConstructorOptions` from `base.ts`.  The optional `prefix` field
is named `prefix_` because `prefix` is a Lean keyword; `decimalPlaces` is a
non-negative integer per the data model. -/
structure BaseCoinConstructorOptions where
  fullName : String
  name : String
  prefix_ : Option String
  suffix : Option String
  kind : CoinKind
  isToken : Bool
  features : List CoinFeature
  decimalPlaces : Nat
  asset : UnderlyingAsset
  network : BaseNetwork
deriving DecidableEq, Repr

/-- The three validation error classes of `errors.ts`, as thrown by
`BaseCoin.validateOptions`: each carries the coin name and the offending
feature data. -/
inductive ValidationError where
  | ConflictingCoinFeaturesError (coinName : String) (conflictingFeatures : List CoinFeature)
  | DisallowedCoinFeatureError (coinName : String) (feature : CoinFeature)
  | MissingRequiredCoinFeatureError (coinName : String) (missingFeatures : List CoinFeature)
deriving DecidableEq, Repr

/-- The `for (const feature of options.features)` loop of
`BaseCoin.validateOptions`: walks the caller-supplied feature list in order;
throws `DisallowedCoinFeatureError` at the first disallowed feature; deletes
each encountered feature from the local `requiredFeatures` set (the
accumulator); returns the final value of that set. -/
def checkFeatures (name : String) (disallowedFeatures : List CoinFeature) :
    List CoinFeature → List CoinFeature → Except ValidationError (List CoinFeature)
  | [], requiredFeatures => Except.ok requiredFeatures
  | feature :: rest, requiredFeatures =>
    if feature ∈ disallowedFeatures then
      Except.error (ValidationError.DisallowedCoinFeatureError name feature)
    else
      checkFeatures name disallowedFeatures rest
        (if feature ∈ requiredFeatures then requiredFeatures.erase feature
         else requiredFeatures)

/-- `BaseCoin.validateOptions` from `base.ts`: first rejects a coin class whose
required and disallowed sets intersect, then scans the supplied features for a
disallowed one, then reports any required features not supplied.  The coin
class's contract is passed as the `requiredFeatures`/`disallowedFeatures`
arguments (the values its `requiredFeatures()`/`disallowedFeatures()` methods
return). -/
def validateOptions (requiredFeatures disallowedFeatures : List CoinFeature)
    (options : BaseCoinConstructorOptions) : Except ValidationError Unit :=
  let intersectionFeatures :=
    requiredFeatures.filter (fun feat => feat ∈ disallowedFeatures)
  if intersectionFeatures.length > 0 then
    Except.error (ValidationError.ConflictingCoinFeaturesError options.name intersectionFeatures)
  else
    match checkFeatures options.name disallowedFeatures options.features requiredFeatures with
    | Except.error e => Except.error e
    | Except.ok remaining =>
      if remaining.length > 0 then
        Except.error (ValidationError.MissingRequiredCoinFeatureError options.name remaining)
      else
        Except.ok ()

/-- The immutable record built by the `BaseCoin` constructor.  `family` is
`Option`-valued because the constructor copies `options.network.family`,
which is `undefined` at runtime for the catalog's testnet networks. -/
structure BaseCoin where
  fullName : String
  name : String
  prefix_ : Option String
  suffix : Option String
  kind : CoinKind
  family : Option CoinFamily
  isToken : Bool
  features : List CoinFeature
  network : BaseNetwork
  decimalPlaces : Nat
  asset : UnderlyingAsset
deriving DecidableEq, Repr

/-- The `BaseCoin` constructor: validates the options against the coin class's
contract, then copies every field into the new record, with `family` taken
from `options.network.family`. -/
def mkBaseCoin (requiredFeatures disallowedFeatures : List CoinFeature)
    (options : BaseCoinConstructorOptions) : Except ValidationError BaseCoin :=
  match validateOptions requiredFeatures disallowedFeatures options with
  | Except.error e => Except.error e
  | Except.ok _ =>
    Except.ok
      { fullName := options.fullName
        name := options.name
        prefix_ := options.prefix_
        suffix := options.suffix
        kind := options.kind
        family := options.network.family
        isToken := options.isToken
        features := options.features
        network := options.network
        decimalPlaces := options.decimalPlaces
        asset := options.asset }

/-- Removes duplicate entries from a list, keeping the first occurrence of
each element in order — the set-like reading of a feature list (as
`[...new Set(l)]` would produce in JS).  `seen` collects elements already
emitted. -/
def dedupKeepFirstAux (seen : List CoinFeature) : List CoinFeature → List CoinFeature
  | [] => []
  | a :: l =>
    if a ∈ seen then dedupKeepFirstAux seen l
    else a :: dedupKeepFirstAux (a :: seen) l

/-- Removes duplicate entries from a feature list, keeping first occurrences
in order. -/
def dedupKeepFirst (l : List CoinFeature) : List CoinFeature :=
  dedupKeepFirstAux [] l

/-- Unfolding lemma for `validateOptions` (zeta-reduced form of the body). -/
lemma validateOptions_def (requiredFeatures disallowedFeatures : List CoinFeature)
    (options : BaseCoinConstructorOptions) :
    validateOptions requiredFeatures disallowedFeatures options =
      if (requiredFeatures.filter (fun feat => feat ∈ disallowedFeatures)).length > 0 then
        Except.error (ValidationError.ConflictingCoinFeaturesError options.name
          (requiredFeatures.filter (fun feat => feat ∈ disallowedFeatures)))
      else
        match checkFeatures options.name disallowedFeatures options.features requiredFeatures with
        | Except.error e => Except.error e
        | Except.ok remaining =>
          if remaining.length > 0 then
            Except.error (ValidationError.MissingRequiredCoinFeatureError options.name remaining)
          else
            Except.ok () := rfl

/-- A disjoint contract has an empty required/disallowed intersection. -/
lemma filter_inter_eq_nil {requiredFeatures disallowedFeatures : List CoinFeature}
    (hdisj : ∀ f ∈ requiredFeatures, f ∉ disallowedFeatures) :
    requiredFeatures.filter (fun feat => feat ∈ disallowedFeatures) = [] :=
  List.filter_eq_nil_iff.mpr (fun f hf => by simpa using hdisj f hf)

/-- Running the feature loop over a list with no disallowed feature succeeds
and leaves exactly the required features that were never supplied (for a
duplicate-free required set, as a JS `Set` always is). -/
lemma checkFeatures_ok (name : String) (disallowedFeatures : List CoinFeature) :
    ∀ (fs req : List CoinFeature), req.Nodup → (∀ f ∈ fs, f ∉ disallowedFeatures) →
      checkFeatures name disallowedFeatures fs req =
        Except.ok (req.filter (fun r => r ∉ fs)) := by
  intro fs
  induction fs with
  | nil =>
    intro req _ _
    simp [checkFeatures]
  | cons f rest ih =>
    intro req hnd h
    have hf : f ∉ disallowedFeatures := h f (List.mem_cons_self f rest)
    have hrest : ∀ g ∈ rest, g ∉ disallowedFeatures :=
      fun g hg => h g (List.mem_cons_of_mem f hg)
    rw [checkFeatures, if_neg hf]
    by_cases hreq : f ∈ req
    · rw [if_pos hreq, ih (req.erase f) (hnd.erase f) hrest]
      congr 1
      rw [hnd.erase_eq_filter f, List.filter_filter]
      apply List.filter_congr
      intro x _
      by_cases hxf : x = f
      · subst hxf
        simp
      · simp [hxf, List.mem_cons]
    · rw [if_neg hreq, ih req hnd hrest]
      congr 1
      apply List.filter_congr
      intro x hx
      have hxf : x ≠ f := fun he => hreq (he ▸ hx)
      simp [hxf, List.mem_cons]

/-- The feature loop fails with `DisallowedCoinFeatureError` at the first
disallowed feature of the supplied list, whatever the required accumulator. -/
lemma checkFeatures_error_first (name : String) (disallowedFeatures : List CoinFeature) :
    ∀ (pre : List CoinFeature) (f : CoinFeature) (post req : List CoinFeature),
      (∀ g ∈ pre, g ∉ disallowedFeatures) → f ∈ disallowedFeatures →
      checkFeatures name disallowedFeatures (pre ++ f :: post) req =
        Except.error (ValidationError.DisallowedCoinFeatureError name f) := by
  intro pre
  induction pre with
  | nil =>
    intro f post req _ hf
    rw [List.nil_append, checkFeatures, if_pos hf]
  | cons g gs ih =>
    intro f post req hpre hf
    have hg : g ∉ disallowedFeatures := hpre g (List.mem_cons_self g gs)
    rw [List.cons_append, checkFeatures, if_neg hg]
    exact ih f post _ (fun x hx => hpre x (List.mem_cons_of_mem g hx)) hf

/-- A list containing a disallowed feature splits at its first disallowed
feature. -/
lemma exists_first_disallowed {l disallowedFeatures : List CoinFeature}
    (h : ∃ f, f ∈ l ∧ f ∈ disallowedFeatures) :
    ∃ pre f post, l = pre ++ f :: post ∧ f ∈ disallowedFeatures ∧
      ∀ g ∈ pre, g ∉ disallowedFeatures := by
  induction l with
  | nil =>
    obtain ⟨f, hfl, _⟩ := h
    exact absurd hfl (List.not_mem_nil f)
  | cons a l ih =>
    by_cases ha : a ∈ disallowedFeatures
    · exact ⟨[], a, l, rfl, ha, by simp⟩
    · obtain ⟨f, hfl, hfd⟩ := h
      have hfl' : f ∈ l := by
        rcases List.mem_cons.mp hfl with rfl | hmem
        · exact absurd hfd ha
        · exact hmem
      obtain ⟨pre, g, post, heq, h1, h2⟩ := ih ⟨f, hfl', hfd⟩
      refine ⟨a :: pre, g, post, by rw [heq, List.cons_append], h1, ?_⟩
      intro x hx
      rcases List.mem_cons.mp hx with rfl | hmem
      · exact ha
      · exact h2 x hmem

/-- Bisimulation between the feature loop on a list and on its
duplicate-free version: skipped duplicates are features already processed,
which are neither disallowed (the loop would already have failed) nor still
in the required accumulator (they were already deleted). -/
lemma checkFeatures_dedupAux (name : String) (disallowedFeatures : List CoinFeature) :
    ∀ (l seen req : List CoinFeature), req.Nodup →
      (∀ s ∈ seen, s ∉ disallowedFeatures ∧ s ∉ req) →
      checkFeatures name disallowedFeatures (dedupKeepFirstAux seen l) req =
        checkFeatures name disallowedFeatures l req := by
  intro l
  induction l with
  | nil =>
    intro seen req _ _
    rfl
  | cons a l ih =>
    intro seen req hnd hinv
    by_cases ha : a ∈ seen
    · obtain ⟨had, har⟩ := hinv a ha
      rw [dedupKeepFirstAux, if_pos ha, checkFeatures, if_neg had, if_neg har]
      exact ih seen req hnd hinv
    · rw [dedupKeepFirstAux, if_neg ha]
      by_cases had : a ∈ disallowedFeatures
      · rw [checkFeatures, if_pos had, checkFeatures, if_pos had]
      · rw [checkFeatures, if_neg had, checkFeatures, if_neg had]
        set req' := if a ∈ req then req.erase a else req with hreq'
        have hnd' : req'.Nodup := by
          rw [hreq']
          by_cases har : a ∈ req
          · rw [if_pos har]
            exact hnd.erase a
          · rw [if_neg har]
            exact hnd
        have hnotmem : a ∉ req' := by
          rw [hreq']
          by_cases har : a ∈ req
          · rw [if_pos har]
            intro hmem
            exact ((hnd.mem_erase_iff).mp hmem).1 rfl
          · rw [if_neg har]
            exact har
        refine ih (a :: seen) req' hnd' ?_
        intro s hs
        rcases List.mem_cons.mp hs with rfl | hmem
        · exact ⟨had, hnotmem⟩
        · obtain ⟨h1, h2⟩ := hinv s hmem
          refine ⟨h1, ?_⟩
          rw [hreq']
          by_cases har : a ∈ req
          · rw [if_pos har]
            exact fun hmem' => h2 (List.mem_of_mem_erase hmem')
          · rw [if_neg har]
            exact h2

/-- Membership is preserved by duplicate removal. -/
lemma mem_dedupKeepFirstAux :
    ∀ (l seen : List CoinFeature) (x : CoinFeature),
      x ∈ dedupKeepFirstAux seen l ↔ x ∈ l ∧ x ∉ seen := by
  intro l
  induction l with
  | nil =>
    intro seen x
    simp [dedupKeepFirstAux]
  | cons a l ih =>
    intro seen x
    by_cases ha : a ∈ seen
    · rw [dedupKeepFirstAux, if_pos ha, ih]
      constructor
      · rintro ⟨h1, h2⟩
        exact ⟨List.mem_cons_of_mem a h1, h2⟩
      · rintro ⟨h1, h2⟩
        rcases List.mem_cons.mp h1 with rfl | hmem
        · exact absurd ha h2
        · exact ⟨hmem, h2⟩
    · rw [dedupKeepFirstAux, if_neg ha]
      constructor
      · intro hx
        rcases List.mem_cons.mp hx with rfl | hmem
        · exact ⟨List.mem_cons_self x l, ha⟩
        · obtain ⟨h1, h2⟩ := (ih (a :: seen) x).mp hmem
          exact ⟨List.mem_cons_of_mem a h1,
            fun hseen => h2 (List.mem_cons_of_mem a hseen)⟩
      · rintro ⟨h1, h2⟩
        rcases List.mem_cons.mp h1 with rfl | hmem
        · exact List.mem_cons_self x _
        · by_cases hxa : x = a
          · subst hxa
            exact List.mem_cons_self x _
          · refine List.mem_cons_of_mem a ((ih (a :: seen) x).mpr ⟨hmem, ?_⟩)
            intro hseen
            rcases List.mem_cons.mp hseen with h | h
            · exact hxa h
            · exact h2 h

/-- Construction fails with an error exactly when validation fails with that
error: the constructor adds nothing to the failure behaviour of
`validateOptions`. -/
lemma mkBaseCoin_eq_error_iff (requiredFeatures disallowedFeatures : List CoinFeature)
    (options : BaseCoinConstructorOptions) (e : ValidationError) :
    mkBaseCoin requiredFeatures disallowedFeatures options = Except.error e ↔
      validateOptions requiredFeatures disallowedFeatures options = Except.error e := by
  unfold mkBaseCoin
  cases h : validateOptions requiredFeatures disallowedFeatures options with
  | error e' => simp
  | ok u => simp

/-- A concrete network reference used in witness constructions. -/
def sampleNetwork : BaseNetwork := BaseNetwork.utxo Networks.main.bitcoin

/-- Concrete constructor options used in witness constructions. -/
def sampleOptions : BaseCoinConstructorOptions where
  fullName := "Bitcoin"
  name := "btc"
  prefix_ := none
  suffix := some "BTC"
  kind := CoinKind.CRYPTO
  isToken := false
  features := [CoinFeature.UNSPENT_MODEL, CoinFeature.CHILD_PAYS_FOR_PARENT]
  decimalPlaces := 8
  asset := UnderlyingAsset.BTC
  network := sampleNetwork

/-- Options supplying a single disallowed feature. -/
def optionsDisallowed : BaseCoinConstructorOptions :=
  { sampleOptions with features := [CoinFeature.ACCOUNT_MODEL] }

/-- Options omitting the required feature while supplying nothing
disallowed. -/
def optionsMissing : BaseCoinConstructorOptions :=
  { sampleOptions with features := [CoinFeature.CHILD_PAYS_FOR_PARENT] }

/-- Options supplying exactly the required feature set. -/
def optionsExact : BaseCoinConstructorOptions :=
  { sampleOptions with features := [CoinFeature.UNSPENT_MODEL] }

/-- Options supplying two disallowed features after one clean feature. -/
def optionsTwoDisallowed : BaseCoinConstructorOptions :=
  { sampleOptions with
      features := [CoinFeature.CHILD_PAYS_FOR_PARENT, CoinFeature.ACCOUNT_MODEL,
        CoinFeature.UNSPENT_MODEL] }

/-- Options whose feature list contains duplicate entries. -/
def optionsDup : BaseCoinConstructorOptions :=
  { sampleOptions with
      features := [CoinFeature.UNSPENT_MODEL, CoinFeature.UNSPENT_MODEL,
        CoinFeature.CHILD_PAYS_FOR_PARENT] }

/-- The coin record produced from `optionsExact`. -/
def sampleCoin : BaseCoin where
  fullName := optionsExact.fullName
  name := optionsExact.name
  prefix_ := optionsExact.prefix_
  suffix := optionsExact.suffix
  kind := optionsExact.kind
  family := optionsExact.network.family
  isToken := optionsExact.isToken
  features := optionsExact.features
  network := optionsExact.network
  decimalPlaces := optionsExact.decimalPlaces
  asset := optionsExact.asset

/-- C1: for a coin class whose required and disallowed contracts are disjoint,
any supplied feature list containing a disallowed feature makes construction
fail with `DisallowedCoinFeatureError` carrying the coin name and an offending
feature, whatever else is supplied (in particular even when required features
are missing, since the disallowed check precedes the missing-feature
check). -/
theorem mkBaseCoin_disallowed_fails
    (requiredFeatures disallowedFeatures : List CoinFeature)
    (options : BaseCoinConstructorOptions)
    (hdisj : ∀ f ∈ requiredFeatures, f ∉ disallowedFeatures)
    (hbad : ∃ f, f ∈ options.features ∧ f ∈ disallowedFeatures) :
    ∃ g, g ∈ options.features ∧ g ∈ disallowedFeatures ∧
      mkBaseCoin requiredFeatures disallowedFeatures options =
        Except.error (ValidationError.DisallowedCoinFeatureError options.name g) := by
  obtain ⟨pre, f, post, heq, hfd, hpre⟩ := exists_first_disallowed hbad
  refine ⟨f, ?_, hfd, ?_⟩
  · rw [heq]
    exact List.mem_append_right pre (List.mem_cons_self f post)
  · refine (mkBaseCoin_eq_error_iff ..).mpr ?_
    rw [validateOptions_def, filter_inter_eq_nil hdisj, heq,
      checkFeatures_error_first options.name disallowedFeatures pre f post
        requiredFeatures hpre hfd]
    simp

/-- Witness for C1: supplying the disallowed `ACCOUNT_MODEL` to a class
requiring `UNSPENT_MODEL` fails with `DisallowedCoinFeatureError`. -/
theorem mkBaseCoin_disallowed_fails_witness :
    ∃ g, g ∈ optionsDisallowed.features ∧ g ∈ [CoinFeature.ACCOUNT_MODEL] ∧
      mkBaseCoin [CoinFeature.UNSPENT_MODEL] [CoinFeature.ACCOUNT_MODEL] optionsDisallowed =
        Except.error
          (ValidationError.DisallowedCoinFeatureError optionsDisallowed.name g) :=
  mkBaseCoin_disallowed_fails [CoinFeature.UNSPENT_MODEL] [CoinFeature.ACCOUNT_MODEL]
    optionsDisallowed (by decide) ⟨CoinFeature.ACCOUNT_MODEL, by decide, by decide⟩

/-- C2: for a coin class with a disjoint contract and a supplied feature list
containing nothing disallowed, omitting at least one required feature makes
construction fail with `MissingRequiredCoinFeatureError` reporting exactly the
set `required − provided` of omitted required features. -/
theorem mkBaseCoin_missing_required
    (requiredFeatures disallowedFeatures : List CoinFeature)
    (options : BaseCoinConstructorOptions)
    (hdisj : ∀ f ∈ requiredFeatures, f ∉ disallowedFeatures)
    (hnd : requiredFeatures.Nodup)
    (hclean : ∀ f ∈ options.features, f ∉ disallowedFeatures)
    (hmiss : ∃ f, f ∈ requiredFeatures ∧ f ∉ options.features) :
    mkBaseCoin requiredFeatures disallowedFeatures options =
      Except.error (ValidationError.MissingRequiredCoinFeatureError options.name
        (requiredFeatures.filter (fun f => f ∉ options.features))) ∧
    ∀ g, g ∈ requiredFeatures.filter (fun f => f ∉ options.features) ↔
      (g ∈ requiredFeatures ∧ g ∉ options.features) := by
  constructor
  · refine (mkBaseCoin_eq_error_iff ..).mpr ?_
    rw [validateOptions_def, filter_inter_eq_nil hdisj,
      checkFeatures_ok options.name disallowedFeatures options.features
        requiredFeatures hnd hclean]
    simpa using hmiss
  · intro g
    simp [List.mem_filter]

/-- Witness for C2: omitting the required `UNSPENT_MODEL` fails with
`MissingRequiredCoinFeatureError` reporting exactly `[UNSPENT_MODEL]`. -/
theorem mkBaseCoin_missing_required_witness :
    mkBaseCoin [CoinFeature.UNSPENT_MODEL] [CoinFeature.ACCOUNT_MODEL] optionsMissing =
      Except.error (ValidationError.MissingRequiredCoinFeatureError optionsMissing.name
        ([CoinFeature.UNSPENT_MODEL].filter (fun f => f ∉ optionsMissing.features))) ∧
    ∀ g, g ∈ [CoinFeature.UNSPENT_MODEL].filter (fun f => f ∉ optionsMissing.features) ↔
      (g ∈ [CoinFeature.UNSPENT_MODEL] ∧ g ∉ optionsMissing.features) :=
  mkBaseCoin_missing_required [CoinFeature.UNSPENT_MODEL] [CoinFeature.ACCOUNT_MODEL]
    optionsMissing (by decide) (by decide) (by decide)
    ⟨CoinFeature.UNSPENT_MODEL, by decide, by decide⟩

/-- C3: a coin class whose required and disallowed sets overlap makes every
construction attempt fail with `ConflictingCoinFeaturesError` carrying the
coin name and exactly the intersection `required ∩ disallowed`, whatever
feature list is supplied. -/
theorem mkBaseCoin_conflicting_contract
    (requiredFeatures disallowedFeatures : List CoinFeature)
    (options : BaseCoinConstructorOptions)
    (hconf : ∃ f, f ∈ requiredFeatures ∧ f ∈ disallowedFeatures) :
    mkBaseCoin requiredFeatures disallowedFeatures options =
      Except.error (ValidationError.ConflictingCoinFeaturesError options.name
        (requiredFeatures.filter (fun f => f ∈ disallowedFeatures))) ∧
    ∀ g, g ∈ requiredFeatures.filter (fun f => f ∈ disallowedFeatures) ↔
      (g ∈ requiredFeatures ∧ g ∈ disallowedFeatures) := by
  constructor
  · refine (mkBaseCoin_eq_error_iff ..).mpr ?_
    rw [validateOptions_def]
    have hlen : 0 <
        (requiredFeatures.filter (fun f => f ∈ disallowedFeatures)).length := by
      obtain ⟨f, h1, h2⟩ := hconf
      exact List.length_pos.mpr
        (List.ne_nil_of_mem (List.mem_filter.mpr ⟨h1, by simpa using h2⟩))
    rw [if_pos hlen]
  · intro g
    simp [List.mem_filter]

/-- Witness for C3: a class requiring and disallowing `UNSPENT_MODEL` fails
with `ConflictingCoinFeaturesError` reporting exactly `[UNSPENT_MODEL]`. -/
theorem mkBaseCoin_conflicting_contract_witness :
    mkBaseCoin [CoinFeature.UNSPENT_MODEL] [CoinFeature.UNSPENT_MODEL] sampleOptions =
      Except.error (ValidationError.ConflictingCoinFeaturesError sampleOptions.name
        ([CoinFeature.UNSPENT_MODEL].filter (fun f => f ∈ [CoinFeature.UNSPENT_MODEL]))) ∧
    ∀ g, g ∈ [CoinFeature.UNSPENT_MODEL].filter (fun f => f ∈ [CoinFeature.UNSPENT_MODEL]) ↔
      (g ∈ [CoinFeature.UNSPENT_MODEL] ∧ g ∈ [CoinFeature.UNSPENT_MODEL]) :=
  mkBaseCoin_conflicting_contract [CoinFeature.UNSPENT_MODEL] [CoinFeature.UNSPENT_MODEL]
    sampleOptions ⟨CoinFeature.UNSPENT_MODEL, by decide, by decide⟩

/-- C4: for a coin class with a disjoint contract, supplying exactly the
required feature set succeeds and produces a `BaseCoin` record. -/
theorem mkBaseCoin_required_succeeds
    (requiredFeatures disallowedFeatures : List CoinFeature)
    (options : BaseCoinConstructorOptions)
    (hdisj : ∀ f ∈ requiredFeatures, f ∉ disallowedFeatures)
    (hnd : requiredFeatures.Nodup)
    (hfeat : options.features = requiredFeatures) :
    ∃ coin, mkBaseCoin requiredFeatures disallowedFeatures options = Except.ok coin := by
  have hval : validateOptions requiredFeatures disallowedFeatures options =
      Except.ok () := by
    rw [validateOptions_def, filter_inter_eq_nil hdisj, hfeat,
      checkFeatures_ok options.name disallowedFeatures requiredFeatures
        requiredFeatures hnd hdisj]
    have hself : requiredFeatures.filter (fun r => r ∉ requiredFeatures) = [] :=
      List.filter_eq_nil_iff.mpr (fun f hf => by simpa using hf)
    rw [hself]
    simp
  exact ⟨_, by unfold mkBaseCoin; rw [hval]⟩

/-- Witness for C4: supplying exactly `[UNSPENT_MODEL]` to a class requiring
`UNSPENT_MODEL` and disallowing `ACCOUNT_MODEL` succeeds. -/
theorem mkBaseCoin_required_succeeds_witness :
    ∃ coin, mkBaseCoin [CoinFeature.UNSPENT_MODEL] [CoinFeature.ACCOUNT_MODEL]
      optionsExact = Except.ok coin :=
  mkBaseCoin_required_succeeds [CoinFeature.UNSPENT_MODEL] [CoinFeature.ACCOUNT_MODEL]
    optionsExact (by decide) (by decide) rfl

/-- C5: every successfully constructed coin copies all option fields verbatim,
except `family`, which is always `options.network.family`. -/
theorem mkBaseCoin_copies_fields
    (requiredFeatures disallowedFeatures : List CoinFeature)
    (options : BaseCoinConstructorOptions) (coin : BaseCoin)
    (h : mkBaseCoin requiredFeatures disallowedFeatures options = Except.ok coin) :
    coin.fullName = options.fullName ∧ coin.name = options.name ∧
    coin.prefix_ = options.prefix_ ∧ coin.suffix = options.suffix ∧
    coin.kind = options.kind ∧ coin.isToken = options.isToken ∧
    coin.features = options.features ∧ coin.decimalPlaces = options.decimalPlaces ∧
    coin.asset = options.asset ∧ coin.network = options.network ∧
    coin.family = options.network.family := by
  unfold mkBaseCoin at h
  cases hval : validateOptions requiredFeatures disallowedFeatures options with
  | error e =>
    rw [hval] at h
    cases h
  | ok u =>
    rw [hval] at h
    simp only [Except.ok.injEq] at h
    subst h
    exact ⟨rfl, rfl, rfl, rfl, rfl, rfl, rfl, rfl, rfl, rfl, rfl⟩

/-- Witness for C5 at the successful construction of `sampleCoin`. -/
theorem mkBaseCoin_copies_fields_witness :
    sampleCoin.fullName = optionsExact.fullName ∧
    sampleCoin.name = optionsExact.name ∧
    sampleCoin.prefix_ = optionsExact.prefix_ ∧
    sampleCoin.suffix = optionsExact.suffix ∧
    sampleCoin.kind = optionsExact.kind ∧
    sampleCoin.isToken = optionsExact.isToken ∧
    sampleCoin.features = optionsExact.features ∧
    sampleCoin.decimalPlaces = optionsExact.decimalPlaces ∧
    sampleCoin.asset = optionsExact.asset ∧
    sampleCoin.network = optionsExact.network ∧
    sampleCoin.family = optionsExact.network.family :=
  mkBaseCoin_copies_fields [CoinFeature.UNSPENT_MODEL] [CoinFeature.ACCOUNT_MODEL]
    optionsExact sampleCoin rfl

/-- C6: validation is a pure check: its outcome depends only on the coin name,
the supplied features and the class contract (none of the other option fields,
and no external state), and on failure the error propagates unchanged with no
`BaseCoin` record ever produced. -/
theorem validateOptions_pure_no_partial
    (requiredFeatures disallowedFeatures : List CoinFeature)
    (o1 o2 : BaseCoinConstructorOptions)
    (hname : o1.name = o2.name) (hfeat : o1.features = o2.features) :
    validateOptions requiredFeatures disallowedFeatures o1 =
      validateOptions requiredFeatures disallowedFeatures o2 ∧
    ∀ e, mkBaseCoin requiredFeatures disallowedFeatures o1 = Except.error e →
      validateOptions requiredFeatures disallowedFeatures o1 = Except.error e ∧
      ∀ coin, mkBaseCoin requiredFeatures disallowedFeatures o1 ≠ Except.ok coin := by
  constructor
  · rw [validateOptions_def, validateOptions_def, hname, hfeat]
  · intro e he
    refine ⟨(mkBaseCoin_eq_error_iff ..).mp he, ?_⟩
    intro coin hok
    rw [he] at hok
    simp at hok

/-- Witness for C6 at a concrete class and options. -/
theorem validateOptions_pure_no_partial_witness :
    validateOptions [CoinFeature.UNSPENT_MODEL] [CoinFeature.ACCOUNT_MODEL]
        sampleOptions =
      validateOptions [CoinFeature.UNSPENT_MODEL] [CoinFeature.ACCOUNT_MODEL]
        sampleOptions ∧
    ∀ e, mkBaseCoin [CoinFeature.UNSPENT_MODEL] [CoinFeature.ACCOUNT_MODEL]
        sampleOptions = Except.error e →
      validateOptions [CoinFeature.UNSPENT_MODEL] [CoinFeature.ACCOUNT_MODEL]
          sampleOptions = Except.error e ∧
      ∀ coin, mkBaseCoin [CoinFeature.UNSPENT_MODEL] [CoinFeature.ACCOUNT_MODEL]
        sampleOptions ≠ Except.ok coin :=
  validateOptions_pure_no_partial [CoinFeature.UNSPENT_MODEL]
    [CoinFeature.ACCOUNT_MODEL] sampleOptions sampleOptions rfl rfl

/-- C9: the feature reported by `DisallowedCoinFeatureError` is exactly the
first disallowed feature in the order of the caller-supplied feature list:
iteration is over the provided list, so the report is fully determined. -/
theorem mkBaseCoin_reports_first_disallowed
    (requiredFeatures disallowedFeatures pre post : List CoinFeature)
    (f : CoinFeature) (options : BaseCoinConstructorOptions)
    (hdisj : ∀ g ∈ requiredFeatures, g ∉ disallowedFeatures)
    (hsplit : options.features = pre ++ f :: post)
    (hf : f ∈ disallowedFeatures)
    (hpre : ∀ g ∈ pre, g ∉ disallowedFeatures) :
    mkBaseCoin requiredFeatures disallowedFeatures options =
      Except.error (ValidationError.DisallowedCoinFeatureError options.name f) := by
  refine (mkBaseCoin_eq_error_iff ..).mpr ?_
  rw [validateOptions_def, filter_inter_eq_nil hdisj, hsplit,
    checkFeatures_error_first options.name disallowedFeatures pre f post
      requiredFeatures hpre hf]
  simp

/-- Witness for C9: with two disallowed features supplied, the first one in
list order (`ACCOUNT_MODEL`) is the one reported. -/
theorem mkBaseCoin_reports_first_disallowed_witness :
    mkBaseCoin [] [CoinFeature.ACCOUNT_MODEL, CoinFeature.UNSPENT_MODEL]
        optionsTwoDisallowed =
      Except.error (ValidationError.DisallowedCoinFeatureError
        optionsTwoDisallowed.name CoinFeature.ACCOUNT_MODEL) :=
  mkBaseCoin_reports_first_disallowed []
    [CoinFeature.ACCOUNT_MODEL, CoinFeature.UNSPENT_MODEL]
    [CoinFeature.CHILD_PAYS_FOR_PARENT] [CoinFeature.UNSPENT_MODEL]
    CoinFeature.ACCOUNT_MODEL optionsTwoDisallowed (by decide) rfl
    (by decide) (by decide)

/-- C10: validation treats the supplied feature list as a set: removing
duplicate entries (keeping first occurrences in order) never changes the
outcome — neither success nor the error and its reported data. -/
theorem validateOptions_dedup_invariant
    (requiredFeatures disallowedFeatures : List CoinFeature)
    (options : BaseCoinConstructorOptions)
    (hnd : requiredFeatures.Nodup) :
    validateOptions requiredFeatures disallowedFeatures
        { options with features := dedupKeepFirst options.features } =
      validateOptions requiredFeatures disallowedFeatures options := by
  have hname : ({ options with features := dedupKeepFirst options.features } :
      BaseCoinConstructorOptions).name = options.name := rfl
  have hfeat : ({ options with features := dedupKeepFirst options.features } :
      BaseCoinConstructorOptions).features = dedupKeepFirst options.features := rfl
  rw [validateOptions_def, validateOptions_def, hname, hfeat, dedupKeepFirst,
    checkFeatures_dedupAux options.name disallowedFeatures options.features []
      requiredFeatures hnd (fun s hs => absurd hs (List.not_mem_nil s))]

/-- Witness for C10: a duplicated `UNSPENT_MODEL` entry does not change the
validation outcome. -/
theorem validateOptions_dedup_invariant_witness :
    validateOptions [CoinFeature.UNSPENT_MODEL] [CoinFeature.ACCOUNT_MODEL]
        { optionsDup with features := dedupKeepFirst optionsDup.features } =
      validateOptions [CoinFeature.UNSPENT_MODEL] [CoinFeature.ACCOUNT_MODEL]
        optionsDup :=
  validateOptions_dedup_invariant [CoinFeature.UNSPENT_MODEL]
    [CoinFeature.ACCOUNT_MODEL] optionsDup (by decide)

/-- C7: the stored catalog records reproduce the canonical network parameter
table bit-exactly for Bitcoin main/test, BitcoinGold main, and Litecoin
main/test. -/
theorem networks_match_canonical_table :
    Networks.main.bitcoin.bech32 = "bc" ∧
    Networks.main.bitcoin.bip32_public = 0x0488b21e ∧
    Networks.main.bitcoin.bip32_private = 0x0488ade4 ∧
    Networks.main.bitcoin.pubKeyHash = 0x00 ∧
    Networks.main.bitcoin.scriptHash = 0x05 ∧
    Networks.main.bitcoin.wif = 0x80 ∧
    Networks.test.bitcoin.bech32 = "tb" ∧
    Networks.test.bitcoin.bip32_public = 0x043587cf ∧
    Networks.test.bitcoin.bip32_private = 0x04358394 ∧
    Networks.test.bitcoin.pubKeyHash = 0x6f ∧
    Networks.test.bitcoin.scriptHash = 0xc4 ∧
    Networks.test.bitcoin.wif = 0xef ∧
    Networks.main.bitcoinGold.bech32 = "btg" ∧
    Networks.main.bitcoinGold.bip32_public = 0x0488b21e ∧
    Networks.main.bitcoinGold.bip32_private = 0x0488ade4 ∧
    Networks.main.bitcoinGold.pubKeyHash = 0x26 ∧
    Networks.main.bitcoinGold.scriptHash = 0x17 ∧
    Networks.main.bitcoinGold.wif = 0x80 ∧
    Networks.main.litecoin.bech32 = "ltc" ∧
    Networks.main.litecoin.bip32_public = 0x0488b21e ∧
    Networks.main.litecoin.bip32_private = 0x0488ade4 ∧
    Networks.main.litecoin.pubKeyHash = 0x30 ∧
    Networks.main.litecoin.scriptHash = 0x32 ∧
    Networks.main.litecoin.wif = 0xb0 ∧
    Networks.test.litecoin.bech32 = "tltc" ∧
    Networks.test.litecoin.bip32_public = 0x0488b21e ∧
    Networks.test.litecoin.bip32_private = 0x0488ade4 ∧
    Networks.test.litecoin.pubKeyHash = 0x6f ∧
    Networks.test.litecoin.scriptHash = 0x3a ∧
    Networks.test.litecoin.wif = 0xb0 := by
  repeat constructor

/-- C8: the claim fails on the code.  Every testnet field initialized from a
mainnet class's `prototype` is `undefined` (`none`) in the frozen catalog,
while the mainnet counterpart holds a real value, so no testnet record shares
its mainnet counterpart's `family`, and neither UTXO testnet shares the
mainnet `messagePrefix`. -/
theorem testnet_prototype_fields_undefined :
    Networks.test.bitcoin.family = none ∧
    Networks.test.litecoin.family = none ∧
    Networks.test.kovan.family = none ∧
    Networks.test.ripple.family = none ∧
    Networks.test.stellar.family = none ∧
    Networks.test.bitcoin.messagePrefix = none ∧
    Networks.test.litecoin.messagePrefix = none ∧
    Networks.main.bitcoin.family = some CoinFamily.BTC ∧
    Networks.main.litecoin.family = some CoinFamily.LTC ∧
    Networks.main.ethereum.family = some CoinFamily.ETH ∧
    Networks.main.ripple.family = some CoinFamily.XRP ∧
    Networks.main.stellar.family = some CoinFamily.XLM ∧
    Networks.test.bitcoin.family ≠ Networks.main.bitcoin.family ∧
    Networks.test.litecoin.family ≠ Networks.main.litecoin.family ∧
    Networks.test.kovan.family ≠ Networks.main.ethereum.family ∧
    Networks.test.ripple.family ≠ Networks.main.ripple.family ∧
    Networks.test.stellar.family ≠ Networks.main.stellar.family ∧
    Networks.test.bitcoin.messagePrefix ≠ Networks.main.bitcoin.messagePrefix ∧
    Networks.test.litecoin.messagePrefix ≠ Networks.main.litecoin.messagePrefix := by
  decide

end Statics
